import Mathlib

/-!
Verification development for the postgres-operator corpus: a shallow
embedding of the CLI command handlers in `pgo/cmd/user.go`, and a model of
the failover/switchover control loop described by the specification, whose
reconciler source is not part of the corpus (only its kuttl test fixtures
are). Definitions for that control loop are modelled from the spec and are
marked as such in their doc comments.
-/

namespace PGOperator

/-- Modelled from the spec: the two-valued `role` tag of the data model,
together with the transient `demoting`/`promoting` marks used by the
Failover Orchestrator mid-operation (spec section 4.3, steps 2 and 3). The
reconciler holding this type is missing from the corpus. -/
inductive Role where
  | primary
  | replica
  | demoting
  | promoting
  deriving DecidableEq, Repr

/-- Modelled from the spec: the lifecycle state of a Pod during deletion,
`running -> terminating -> deleted` (spec section 4.4). -/
inductive PodState where
  | running
  | terminating
  | deleted
  deriving DecidableEq, Repr

/-- Modelled from the spec: a Pod has a stable identity (name), a role and
a lifecycle state (spec section 3). -/
structure Pod where
  name : String
  role : Role
  state : PodState
  deriving DecidableEq, Repr

/-- Modelled from the spec: a Cluster is a named logical PostgreSQL
cluster owning a set of Pods (spec section 3). -/
structure Cluster where
  name : String
  pods : List Pod
  deriving DecidableEq, Repr

/-- Modelled from the spec: an emitted record with reason, target pod and
timestamp; reason `Killing` marks the beginning of pod termination (spec
section 3). Timestamps are modelled as a monotone logical clock. -/
structure LifecycleEvent where
  reason : String
  targetPod : String
  timestamp : Nat
  deriving DecidableEq, Repr

/-- Boolean test used by the role filters of the control-loop model. -/
def isPrimaryPod (p : Pod) : Bool := p.role == Role.primary

/-- Modelled from the spec: the pods of a cluster that do not currently
hold the `primary` role (enumerated by the Deletion Sequencer, spec
section 4.4). -/
def nonPrimaryPods (c : Cluster) : List Pod :=
  c.pods.filter (fun p => !(isPrimaryPod p))

/-- Modelled from the spec: the pods of a cluster that currently hold the
`primary` role. -/
def primaryPods (c : Cluster) : List Pod :=
  c.pods.filter isPrimaryPod

/-- Modelled from the spec: the pods of a cluster in role `replica`,
the candidate set handed to the pluggable replica-selection policy (spec
section 4.3, step 1). -/
def replicaPods (c : Cluster) : List Pod :=
  c.pods.filter (fun p => p.role == Role.replica)

/-- Modelled from the spec: issue fire-and-forget termination requests for
a list of pods, preserving issuance order; each issuance records a
`Killing` LifecycleEvent and advances the logical clock (spec
section 4.4). -/
def issueTerminations : List Pod → Nat → List LifecycleEvent
  | [], _ => []
  | p :: rest, t =>
      { reason := "Killing", targetPod := p.name, timestamp := t } ::
        issueTerminations rest (t + 1)

/-- Modelled from the spec: the Deletion Sequencer of the missing
reconciler. Policy (spec section 4.4): enumerate all non-primary pods,
issue termination for each, then issue termination for the primary;
issuance order is preserved. -/
def deleteClusterEvents (c : Cluster) (t0 : Nat) : List LifecycleEvent :=
  issueTerminations (nonPrimaryPods c ++ primaryPods c) t0

/-- Modelled from the spec: the Role Tracker's read of the current primary
(spec section 4.1), a metadata lookup with no side effects. -/
def findPrimary (c : Cluster) : Option Pod :=
  c.pods.find? isPrimaryPod

/-- Modelled from the spec: update the role label of the pod with the
given name (the commit step mutates role labels keyed by pod identity,
spec section 4.3). -/
def setRole (c : Cluster) (podName : String) (r : Role) : Cluster :=
  { c with pods := c.pods.map (fun p => if p.name = podName then { p with role := r } else p) }

/-- Modelled from the spec: error kinds surfaced by the Failover
Orchestrator (spec section 7). -/
inductive SwitchoverError where
  | validationError
  | promotionTimeout
  deriving DecidableEq, Repr

/-- Role assignment performed by the commit step of a successful
switchover: the chosen replica becomes `primary` and the old primary
becomes `replica`; every other pod keeps its role. -/
def commitRole (oldPrimaryName newPrimaryName : String) (p : Pod) : Pod :=
  if p.name = newPrimaryName then { p with role := Role.primary }
  else if p.name = oldPrimaryName then { p with role := Role.replica }
  else p

/-- Modelled from the spec: the Failover Orchestrator of the missing
reconciler (spec section 4.3). Snapshot the current primary P and a
replica R chosen by the pluggable selection policy `pick`; fence P
(`demoting`), promote R (`promoting`); if R reports ready, commit the
role labels atomically; otherwise abort, restore P to `primary` and R to
`replica`, and surface `promotionTimeout`. Readiness of the promoted
replica is modelled by the boolean `promoteReady`. -/
def switchover (pick : List Pod → Option Pod) (promoteReady : Bool) (c : Cluster) :
    Except SwitchoverError Unit × Cluster :=
  match findPrimary c, pick (replicaPods c) with
  | some P, some R =>
      let c1 := setRole c P.name Role.demoting
      let c2 := setRole c1 R.name Role.promoting
      if promoteReady then
        (Except.ok (), setRole (setRole c2 R.name Role.primary) P.name Role.replica)
      else
        (Except.error SwitchoverError.promotionTimeout,
          setRole (setRole c2 R.name Role.replica) P.name Role.primary)
  | _, _ => (Except.error SwitchoverError.validationError, c)

/-- Number of pods of the cluster currently labelled `primary`. -/
def countPrimary (c : Cluster) : Nat :=
  c.pods.countP isPrimaryPod

/-- Modelled from the spec: the event trace of downstream terminations
caused by a switchover (spec section 4.3, step 5). The new primary is
confirmed ready first, and only then are any downstream terminations
issued; each later issuance strictly advances the logical clock. -/
def switchoverEvents (newPrimaryName : String) (downstream : List Pod) (t0 : Nat) :
    List LifecycleEvent :=
  { reason := "ReadyConfirmed", targetPod := newPrimaryName, timestamp := t0 } ::
    issueTerminations downstream (t0 + 1)

/-- Modelled from the spec: the decision of the Switchover Trigger (spec
section 4.2). -/
inductive TriggerDecision where
  | fire
  | ignore (reason : String)
  deriving DecidableEq, Repr

/-- Modelled from the spec: the Switchover Trigger's state, the timestamp
of the last processed switchover request, if any (spec section 4.2).
Timestamps are modelled by the monotone logical clock the spec's design
notes call for. -/
structure TriggerState where
  lastProcessed : Option Nat
  deriving DecidableEq, Repr

/-- Modelled from the spec: whether an observed timestamp is strictly
newer than the last processed one (spec section 4.2); any timestamp is
newer than an empty history. -/
def isNewerTimestamp (s : TriggerState) (ts : Nat) : Bool :=
  match s.lastProcessed with
  | none => true
  | some l => decide (l < ts)

/-- Modelled from the spec: `onAnnotationChange(cluster, timestamp) ->
TriggerDecision` of the missing reconciler (spec section 4.2). Fires
exactly once per distinct timestamp value, recording it; ignores repeats
and timestamps not strictly newer than the last processed one. -/
def onAnnotationChange (s : TriggerState) (ts : Nat) : TriggerDecision × TriggerState :=
  if isNewerTimestamp s ts then
    (TriggerDecision.fire, { lastProcessed := some ts })
  else
    (TriggerDecision.ignore "timestamp not newer than last processed", s)

/-- Apply the Switchover Trigger twice with the same timestamp and collect
the two decisions in order. -/
def runTwice (s : TriggerState) (ts : Nat) : List TriggerDecision :=
  let step1 := onAnnotationChange s ts
  let step2 := onAnnotationChange step1.2 ts
  [step1.1, step2.1]

/-- Number of `fire` decisions, i.e. orchestration runs started. -/
def firesCount (ds : List TriggerDecision) : Nat :=
  ds.countP (fun d => d == TriggerDecision.fire)

/-- Modelled from the spec: the kinds of orchestration operation that
contend for a cluster's single logical worker (spec section 5). -/
inductive OpKind where
  | switchoverOp
  | deletionOp
  deriving DecidableEq, Repr

/-- Modelled from the spec: outcome of submitting an operation, either
started or rejected immediately with `ConcurrencyConflict` (spec
section 7). -/
inductive SubmitResult where
  | started
  | rejectedConcurrencyConflict
  deriving DecidableEq, Repr

/-- Modelled from the spec: the per-cluster orchestration state, holding
the operation currently in flight, if any; a single active operation per
Cluster at a time (spec section 5). -/
structure ClusterOrchState where
  inFlight : Option OpKind
  deriving DecidableEq, Repr

/-- Modelled from the spec: submit an operation for a cluster. A second
operation attempted while one is in flight is rejected immediately, not
queued (spec sections 5 and 7). -/
def submitOperation (s : ClusterOrchState) (op : OpKind) : SubmitResult × ClusterOrchState :=
  match s.inFlight with
  | some _ => (SubmitResult.rejectedConcurrencyConflict, s)
  | none => (SubmitResult.started, { inFlight := some op })

/-- Modelled from the spec: completion of the in-flight operation frees
the cluster's worker. -/
def completeOperation (_ : ClusterOrchState) : ClusterOrchState :=
  { inFlight := none }

/-- The pod role label key used by the operator, as exercised by the kuttl
test fixtures (selectors of the form
postgres-operator.crunchydata.com/role=master). -/
def roleLabelKey : String := "postgres-operator.crunchydata.com/role"

/-- Modelled from the spec: the values of the outbound `role` label by
which external consumers select pods (spec section 6). -/
def roleLabelValues : List String := ["master", "primary", "replica"]

/-- The `master` role label value appearing in the test fixtures. -/
def roleMaster : String := "master"

/-- The `replica` role label value appearing in the test fixtures. -/
def roleReplica : String := "replica"

/-- The cluster annotation key the test fixture writes to request a
switchover. -/
def triggerSwitchoverAnnotationKey : String :=
  "postgres-operator.crunchydata.com/trigger-switchover"

/-- The selector string used by the test fixtures to find the primary. -/
def fixtureMasterSelector : String := "postgres-operator.crunchydata.com/role=master"

/-- The selector string used by the test fixtures to find the replica. -/
def fixtureReplicaSelector : String := "postgres-operator.crunchydata.com/role=replica"

/-- Modelled from the spec: the two inbound interface events (spec
section 6): a mutation of a Cluster resource's annotation carrying an
opaque timestamp string, and deletion of the Cluster resource. -/
inductive InboundEvent where
  | annotationMutation (key : String) (value : String)
  | resourceDeletion
  deriving DecidableEq, Repr

/-- Modelled from the spec: the control-loop components an inbound event
can invoke (spec sections 2 and 6). -/
inductive Component where
  | switchoverTrigger
  | deletionSequencer
  deriving DecidableEq, Repr

/-- Modelled from the spec: inbound dispatch (spec section 6). A mutation
of the `trigger-switchover` annotation invokes the Switchover Trigger;
deletion of the Cluster resource invokes the Deletion Sequencer; other
annotation mutations invoke nothing. -/
def dispatchInbound : InboundEvent → Option Component
  | InboundEvent.annotationMutation key _ =>
      if key = triggerSwitchoverAnnotationKey then some Component.switchoverTrigger else none
  | InboundEvent.resourceDeletion => some Component.deletionSequencer

end PGOperator

namespace PgoCmd

/-- The SQL `VALID UNTIL` sentinel meaning a password that never expires,
from the operator's util package (referenced by `user.go` as
`utiloperator.SQLValidUntilAlways`). -/
def SQLValidUntilAlways : String := "infinity"

/-- The SQL `VALID UNTIL` sentinel meaning a password that is already
invalid, from the operator's util package (referenced by `user.go` as
`utiloperator.SQLValidUntilNever`). -/
def SQLValidUntilNever : String := "-infinity"

/-- Embedding of Go strings.TrimSpace as used by `user.go`: remove
leading and trailing whitespace characters from a string. -/
def trimSpace (s : String) : String :=
  String.mk (((s.data.dropWhile Char.isWhitespace).reverse.dropWhile Char.isWhitespace).reverse)

/-- The package-level CLI flag variables read by the command handlers of
`user.go`, gathered into one record. Defaults are the Go zero values. -/
structure UserCmdFlags where
  AllFlag : Bool := false
  ManagedUser : Bool := false
  Password : String := ""
  PasswordAgeDays : Int := 0
  PasswordLength : Int := 0
  PasswordValidAlways : Bool := false
  RotatePassword : Bool := false
  ExpireUser : Bool := false
  EnableLogin : Bool := false
  DisableLogin : Bool := false
  Expired : Int := 0
  Selector : String := ""
  Username : String := ""
  deriving DecidableEq, Repr

/-- The fields of `msgs.CreateUserRequest` populated by `createUser`. -/
structure CreateUserRequest where
  AllFlag : Bool
  Clusters : List String
  ManagedUser : Bool
  Namespace : String
  Password : String
  PasswordAgeDays : Int
  PasswordLength : Int
  Username : String
  Selector : String
  deriving DecidableEq, Repr

/-- The login-state parameter of `msgs.UpdateUserRequest`; the zero value
means neither enable nor disable was requested. -/
inductive LoginState where
  | doNothing
  | enable
  | disable
  deriving DecidableEq, Repr

/-- The fields of `msgs.UpdateUserRequest` populated by `updateUser`
(`ClientVersion`, sent by some sibling handlers, is opaque plumbing and
carries no behavior in this file). -/
structure UpdateUserRequest where
  AllFlag : Bool
  Clusters : List String
  Expired : Int
  ExpireUser : Bool
  LoginState : LoginState
  ManagedUser : Bool
  Namespace : String
  Password : String
  PasswordAgeDays : Int
  PasswordLength : Int
  PasswordValidAlways : Bool
  RotatePassword : Bool
  Selector : String
  Username : String
  deriving DecidableEq, Repr

/-- The fields of `msgs.ShowUserRequest` populated by `showUser` (again
without the opaque `ClientVersion`). -/
structure ShowUserRequest where
  Clusters : List String
  Selector : String
  Namespace : String
  Expired : Int
  AllFlag : Bool
  deriving DecidableEq, Repr

/-- Embedding of `createUser` from `pgo/cmd/user.go` up to its API call:
trim the username; an empty username or a PostgreSQL system account prints
an error and exits with status 1 before any request is issued; otherwise
the built `CreateUserRequest` is handed to the API client. The system
account check `utiloperator.CheckPostgreSQLUserSystemAccount` lives
outside this file and is passed in as `isSystemAccount`. -/
def createUser (isSystemAccount : String → Bool) (flags : UserCmdFlags)
    (args : List String) (ns : String) : Except Nat CreateUserRequest :=
  let username := trimSpace flags.Username
  if username = "" then Except.error 1
  else if isSystemAccount username then Except.error 1
  else Except.ok {
    AllFlag := flags.AllFlag
    Clusters := args
    ManagedUser := flags.ManagedUser
    Namespace := ns
    Password := flags.Password
    PasswordAgeDays := flags.PasswordAgeDays
    PasswordLength := flags.PasswordLength
    Username := username
    Selector := flags.Selector }

/-- Embedding of `updateUser` from `pgo/cmd/user.go` up to its API call:
build the request with the trimmed username, derive `LoginState` from the
`EnableLogin`/`DisableLogin` flags, then exit with status 1 when a
non-empty username names a PostgreSQL system account; otherwise the
request is handed to the API client. -/
def updateUser (isSystemAccount : String → Bool) (flags : UserCmdFlags)
    (clusterNames : List String) (ns : String) : Except Nat UpdateUserRequest :=
  let request : UpdateUserRequest := {
    AllFlag := flags.AllFlag
    Clusters := clusterNames
    Expired := flags.Expired
    ExpireUser := flags.ExpireUser
    LoginState := LoginState.doNothing
    ManagedUser := flags.ManagedUser
    Namespace := ns
    Password := flags.Password
    PasswordAgeDays := flags.PasswordAgeDays
    PasswordLength := flags.PasswordLength
    PasswordValidAlways := flags.PasswordValidAlways
    RotatePassword := flags.RotatePassword
    Selector := flags.Selector
    Username := trimSpace flags.Username }
  let request :=
    if flags.EnableLogin then { request with LoginState := LoginState.enable }
    else if flags.DisableLogin then { request with LoginState := LoginState.disable }
    else request
  if request.Username ≠ "" ∧ isSystemAccount request.Username = true then Except.error 1
  else Except.ok request

/-- The fields of `msgs.UserResponseDetail` read by `printUserTextRow`. -/
structure UserResponseDetail where
  ClusterName : String
  Username : String
  Password : String
  ValidUntil : String
  Error : Bool
  ErrorMessage : String
  deriving DecidableEq, Repr

/-- The row of display fields computed by `printUserTextRow` in
`pgo/cmd/user.go` before each field is padded and printed. -/
structure UserRowDisplay where
  clusterName : String
  username : String
  password : String
  expires : String
  status : String
  errorMessage : String
  deriving DecidableEq, Repr

/-- Embedding of `printUserTextRow` from `pgo/cmd/user.go`: render the
expires column from `ValidUntil` and its sentinels, then, when the result
row carries an error, blank the password and expires columns and set the
status column to error. -/
def printUserTextRow (result : UserResponseDetail) : UserRowDisplay :=
  let expires :=
    if result.ValidUntil = "" ∨ result.ValidUntil = SQLValidUntilAlways then "never"
    else if result.ValidUntil = SQLValidUntilNever then "expired"
    else result.ValidUntil
  let password := result.Password
  let status := "ok"
  if result.Error then
    { clusterName := result.ClusterName, username := result.Username,
      password := "", expires := "", status := "error",
      errorMessage := result.ErrorMessage }
  else
    { clusterName := result.ClusterName, username := result.Username,
      password := password, expires := expires, status := status,
      errorMessage := result.ErrorMessage }

/-- Embedding of `showUser` from `pgo/cmd/user.go` up to its API call:
with no cluster-name arguments but a non-empty `--selector`, the argument
list is replaced by the single element all; the request is then built
from the flags. -/
def showUser (flags : UserCmdFlags) (args : List String) (ns : String) : ShowUserRequest :=
  let args := if args.length = 0 ∧ flags.Selector ≠ "" then ["all"] else args
  { Clusters := args
    Selector := flags.Selector
    Namespace := ns
    Expired := flags.Expired
    AllFlag := flags.AllFlag }

end PgoCmd

namespace PGOperator

/-- Sample two-pod cluster matching the scenario of the test fixtures:
`pg-0` is the primary and `pg-1` the replica. -/
def witnessCluster : Cluster :=
  { name := "delete-switchover",
    pods := [{ name := "pg-0", role := Role.primary, state := PodState.running },
             { name := "pg-1", role := Role.replica, state := PodState.running }] }

end PGOperator

namespace PGOperator

theorem issueTerminations_timestamp_lb {ps : List Pod} {t : Nat} {e : LifecycleEvent}
    (he : e ∈ issueTerminations ps t) : t ≤ e.timestamp := by
  induction ps generalizing t with
  | nil => simp [issueTerminations] at he
  | cons p rest ih =>
      simp only [issueTerminations, List.mem_cons] at he
      rcases he with he | he
      · subst he; exact Nat.le_refl t
      · exact Nat.le_trans (Nat.le_succ t) (ih he)

theorem issueTerminations_timestamp_ub {ps : List Pod} {t : Nat} {e : LifecycleEvent}
    (he : e ∈ issueTerminations ps t) : e.timestamp < t + ps.length := by
  induction ps generalizing t with
  | nil => simp [issueTerminations] at he
  | cons p rest ih =>
      simp only [issueTerminations, List.mem_cons] at he
      rcases he with he | he
      · subst he
        simp only [List.length_cons]
        omega
      · have h := ih he
        simp only [List.length_cons]
        omega

theorem issueTerminations_target {ps : List Pod} {t : Nat} {e : LifecycleEvent}
    (he : e ∈ issueTerminations ps t) : ∃ q ∈ ps, e.targetPod = q.name := by
  induction ps generalizing t with
  | nil => simp [issueTerminations] at he
  | cons p rest ih =>
      simp only [issueTerminations, List.mem_cons] at he
      rcases he with he | he
      · exact ⟨p, List.mem_cons_self p rest, by subst he; rfl⟩
      · obtain ⟨q, hq, hqn⟩ := ih he
        exact ⟨q, List.mem_cons_of_mem p hq, hqn⟩

theorem issueTerminations_append (xs ys : List Pod) (t : Nat) :
    issueTerminations (xs ++ ys) t =
      issueTerminations xs t ++ issueTerminations ys (t + xs.length) := by
  induction xs generalizing t with
  | nil => simp [issueTerminations]
  | cons p rest ih =>
      have h : t + (rest.length + 1) = t + 1 + rest.length := by omega
      simp only [List.cons_append, issueTerminations, List.length_cons, h,
        List.cons.injEq, true_and]
      exact ih (t + 1)

theorem pod_name_inj {l : List Pod} (h : (l.map Pod.name).Nodup) {a b : Pod}
    (ha : a ∈ l) (hb : b ∈ l) (hn : a.name = b.name) : a = b :=
  List.inj_on_of_nodup_map h ha hb hn

end PGOperator

namespace PGOperator

theorem cluster_eq_of_fields_eq {a b : Cluster} (hn : a.name = b.name)
    (hp : a.pods = b.pods) : a = b := by
  cases a; cases b; simp_all

/-- C1: during deletion of a cluster with one primary and at least one
replica, the `Killing` event recorded for every non-primary pod carries a
timestamp less than or equal to that of the `Killing` event recorded for
the primary pod: the Deletion Sequencer issues termination for all
non-primary pods before the primary, and issuance order is preserved by
the monotone event clock. -/
theorem deletion_replica_killed_before_primary (c : Cluster) (t0 : Nat)
    (hnodup : (c.pods.map Pod.name).Nodup)
    (r p : Pod) (hr : r ∈ c.pods) (hp : p ∈ c.pods)
    (hrrole : r.role ≠ Role.primary) (hprole : p.role = Role.primary)
    (er ep : LifecycleEvent)
    (her : er ∈ deleteClusterEvents c t0) (hep : ep ∈ deleteClusterEvents c t0)
    (hern : er.targetPod = r.name) (hepn : ep.targetPod = p.name) :
    er.timestamp ≤ ep.timestamp := by
  unfold deleteClusterEvents at her hep
  rw [issueTerminations_append] at her hep
  have hrseg : er ∈ issueTerminations (nonPrimaryPods c) t0 := by
    rcases List.mem_append.mp her with h | h
    · exact h
    · exfalso
      obtain ⟨q, hq, hqn⟩ := issueTerminations_target h
      obtain ⟨hqmem, hqrole⟩ := List.mem_filter.mp hq
      have hqr : q = r := pod_name_inj hnodup hqmem hr (hqn.symm.trans hern)
      have hqprim : q.role = Role.primary := by simpa [isPrimaryPod] using hqrole
      rw [hqr] at hqprim
      exact hrrole hqprim
  have hpseg : ep ∈ issueTerminations (primaryPods c) (t0 + (nonPrimaryPods c).length) := by
    rcases List.mem_append.mp hep with h | h
    · exfalso
      obtain ⟨q, hq, hqn⟩ := issueTerminations_target h
      obtain ⟨hqmem, hqrole⟩ := List.mem_filter.mp hq
      have hqp : q = p := pod_name_inj hnodup hqmem hp (hqn.symm.trans hepn)
      have hqnp : ¬ (isPrimaryPod q = true) := by simpa using hqrole
      rw [hqp] at hqnp
      exact hqnp (by simp [isPrimaryPod, hprole])
    · exact h
  have h1 := issueTerminations_timestamp_ub hrseg
  have h2 := issueTerminations_timestamp_lb hpseg
  omega

/-- Witness for C1: in the two-pod fixture scenario the replica `pg-1` is
killed at logical time 0 and the primary `pg-0` at logical time 1. -/
theorem deletion_replica_killed_before_primary_witness :
    ({ reason := "Killing", targetPod := "pg-1", timestamp := 0 } : LifecycleEvent).timestamp ≤
      ({ reason := "Killing", targetPod := "pg-0", timestamp := 1 } : LifecycleEvent).timestamp :=
  deletion_replica_killed_before_primary witnessCluster 0 (by decide)
    { name := "pg-1", role := Role.replica, state := PodState.running }
    { name := "pg-0", role := Role.primary, state := PodState.running }
    (by decide) (by decide) (by decide) (by decide)
    { reason := "Killing", targetPod := "pg-1", timestamp := 0 }
    { reason := "Killing", targetPod := "pg-0", timestamp := 1 }
    (by decide) (by decide) (by decide) (by decide)

/-- C2: when a switchover commits (the promoted replica reported ready),
the committed cluster has exactly one pod labelled `primary`. -/
theorem switchover_commit_unique_primary (pick : List Pod → Option Pod) (c : Cluster)
    (P R : Pod)
    (hnodup : (c.pods.map Pod.name).Nodup)
    (hfind : findPrimary c = some P)
    (hpick : pick (replicaPods c) = some R)
    (hRmem : R ∈ replicaPods c)
    (huniq : ∀ q ∈ c.pods, q.role = Role.primary → q = P) :
    (switchover pick true c).1 = Except.ok () ∧
    countPrimary (switchover pick true c).2 = 1 := by
  have hPmem : P ∈ c.pods := List.mem_of_find?_eq_some hfind
  have hProle : P.role = Role.primary := by
    have h := List.find?_some hfind
    simpa [isPrimaryPod] using h
  obtain ⟨hRmem2, hRrole2⟩ := List.mem_filter.mp hRmem
  have hRrole : R.role = Role.replica := by simpa using hRrole2
  have hne : R.name ≠ P.name := by
    intro h
    have hRP : R = P := pod_name_inj hnodup hRmem2 hPmem h
    rw [hRP, hProle] at hRrole
    simp at hRrole
  have hresult : switchover pick true c =
      (Except.ok (), setRole (setRole (setRole (setRole c P.name Role.demoting)
        R.name Role.promoting) R.name Role.primary) P.name Role.replica) := by
    simp [switchover, hfind, hpick]
  refine ⟨by rw [hresult], ?_⟩
  rw [hresult]
  have hpods : (setRole (setRole (setRole (setRole c P.name Role.demoting)
      R.name Role.promoting) R.name Role.primary) P.name Role.replica).pods
      = c.pods.map (commitRole P.name R.name) := by
    simp only [setRole, List.map_map]
    apply List.map_congr_left
    intro q hq
    simp only [Function.comp_apply, commitRole]
    by_cases h1 : q.name = P.name
    · have h2 : ¬ q.name = R.name := fun hh => hne (hh.symm.trans h1)
      have h3 : ¬ P.name = R.name := fun hh => hne hh.symm
      simp [h1, h2, h3]
    · by_cases h2 : q.name = R.name
      · simp [h1, h2, hne]
      · simp [h1, h2]
  unfold countPrimary
  rw [hpods, List.countP_map]
  have hcount : List.countP (isPrimaryPod ∘ commitRole P.name R.name) c.pods
      = List.countP (fun q => q.name == R.name) c.pods := by
    apply List.countP_congr
    intro q hq
    simp only [Function.comp_apply, commitRole, isPrimaryPod, beq_iff_eq]
    by_cases h2 : q.name = R.name
    · simp [h2]
    · by_cases h1 : q.name = P.name
      · have h3 : ¬ P.name = R.name := fun hh => hne hh.symm
        simp [h1, h2, h3]
      · rw [if_neg h2, if_neg h1]
        simp only [h2, iff_false]
        intro hrole
        exact h1 (congrArg Pod.name (huniq q hq hrole))
  rw [hcount]
  have hmap : List.countP (fun q => q.name == R.name) c.pods
      = List.count R.name (c.pods.map Pod.name) := by
    rw [List.count_eq_countP, List.countP_map]
    rfl
  rw [hmap]
  exact List.count_eq_one_of_mem hnodup (List.mem_map_of_mem Pod.name hRmem2)

/-- Witness for C2: switching over the two-pod fixture cluster with the
head-of-list selection policy commits and leaves exactly one primary. -/
theorem switchover_commit_unique_primary_witness :
    (switchover List.head? true witnessCluster).1 = Except.ok () ∧
    countPrimary (switchover List.head? true witnessCluster).2 = 1 :=
  switchover_commit_unique_primary List.head? witnessCluster
    { name := "pg-0", role := Role.primary, state := PodState.running }
    { name := "pg-1", role := Role.replica, state := PodState.running }
    (by decide) (by decide) (by decide) (by decide) (by decide)

/-- C3: when the promotion step fails, the switchover aborts with a
`promotionTimeout` error result and the cluster is exactly as before the
operation, so the original primary still carries the `primary` role; the
error is surfaced to the caller, not retried. -/
theorem switchover_promotion_failure_rollback (pick : List Pod → Option Pod) (c : Cluster)
    (P R : Pod)
    (hnodup : (c.pods.map Pod.name).Nodup)
    (hfind : findPrimary c = some P)
    (hpick : pick (replicaPods c) = some R)
    (hRmem : R ∈ replicaPods c) :
    switchover pick false c = (Except.error SwitchoverError.promotionTimeout, c) := by
  have hPmem : P ∈ c.pods := List.mem_of_find?_eq_some hfind
  have hProle : P.role = Role.primary := by
    have h := List.find?_some hfind
    simpa [isPrimaryPod] using h
  obtain ⟨hRmem2, hRrole2⟩ := List.mem_filter.mp hRmem
  have hRrole : R.role = Role.replica := by simpa using hRrole2
  have hne : R.name ≠ P.name := by
    intro h
    have hRP : R = P := pod_name_inj hnodup hRmem2 hPmem h
    rw [hRP, hProle] at hRrole
    simp at hRrole
  have hstep : switchover pick false c =
      (Except.error SwitchoverError.promotionTimeout,
        setRole (setRole (setRole (setRole c P.name Role.demoting)
          R.name Role.promoting) R.name Role.replica) P.name Role.primary) := by
    simp [switchover, hfind, hpick]
  have hpods : (setRole (setRole (setRole (setRole c P.name Role.demoting)
      R.name Role.promoting) R.name Role.replica) P.name Role.primary).pods = c.pods := by
    simp only [setRole, List.map_map]
    refine (List.map_congr_left ?_).trans (List.map_id c.pods)
    intro q hq
    simp only [Function.comp_apply, id_eq]
    by_cases h1 : q.name = P.name
    · have h2 : ¬ q.name = R.name := fun hh => hne (hh.symm.trans h1)
      have h3 : ¬ P.name = R.name := fun hh => hne hh.symm
      have hqP : q = P := pod_name_inj hnodup hq hPmem h1
      subst hqP
      simp [h2, h3]
      rw [← hProle]
    · by_cases h2 : q.name = R.name
      · have hqR : q = R := pod_name_inj hnodup hq hRmem2 h2
        subst hqR
        simp [hne, h2]
        rw [← hRrole]
      · simp [h1, h2]
  rw [hstep]
  exact congrArg (Prod.mk (Except.error SwitchoverError.promotionTimeout))
    (cluster_eq_of_fields_eq rfl hpods)

/-- Witness for C3: a failed promotion on the two-pod fixture cluster
returns a `promotionTimeout` error and the unchanged cluster. -/
theorem switchover_promotion_failure_rollback_witness :
    switchover List.head? false witnessCluster =
      (Except.error SwitchoverError.promotionTimeout, witnessCluster) :=
  switchover_promotion_failure_rollback List.head? witnessCluster
    { name := "pg-0", role := Role.primary, state := PodState.running }
    { name := "pg-1", role := Role.replica, state := PodState.running }
    (by decide) (by decide) (by decide) (by decide)

/-- C4: applying the Switchover Trigger twice with the same timestamp
starts exactly one orchestration run when the timestamp is strictly newer
than the last processed one and none otherwise, and a timestamp that is
not strictly newer is answered with an ignore decision. -/
theorem trigger_fires_exactly_once (s : TriggerState) (ts : Nat) :
    firesCount (runTwice s ts) = (if isNewerTimestamp s ts then 1 else 0) ∧
    (onAnnotationChange s ts).1 =
      (if isNewerTimestamp s ts then TriggerDecision.fire
       else TriggerDecision.ignore "timestamp not newer than last processed") := by
  by_cases h : isNewerTimestamp s ts = true
  · have hsecond : isNewerTimestamp { lastProcessed := some ts } ts = false := by
      simp [isNewerTimestamp]
    constructor
    · simp [runTwice, onAnnotationChange, h, hsecond, firesCount]
    · simp [onAnnotationChange, h]
  · have hfalse : isNewerTimestamp s ts = false := by
      simpa using h
    constructor
    · simp [runTwice, onAnnotationChange, hfalse, firesCount]
    · simp [onAnnotationChange, hfalse]

/-- C5: in the switchover event trace, the head of the trace confirms the
new primary ready at the initial clock value, and every `Killing` event of
the trace, in particular any against the old primary, carries a strictly
later timestamp. -/
theorem switchover_killing_only_after_ready (newPrimaryName : String)
    (downstream : List Pod) (t0 : Nat) (e : LifecycleEvent)
    (he : e ∈ switchoverEvents newPrimaryName downstream t0)
    (hk : e.reason = "Killing") :
    (switchoverEvents newPrimaryName downstream t0).head? =
      some { reason := "ReadyConfirmed", targetPod := newPrimaryName, timestamp := t0 } ∧
    t0 < e.timestamp := by
  refine ⟨rfl, ?_⟩
  rcases List.mem_cons.mp he with h | h
  · rw [h] at hk
    simp at hk
  · have hlb := issueTerminations_timestamp_lb h
    omega

/-- Witness for C5: with new primary `pg-1` and the old primary `pg-0`
terminated downstream, the ready confirmation is at time 0 and the
`Killing` of `pg-0` at time 1. -/
theorem switchover_killing_only_after_ready_witness :
    (switchoverEvents "pg-1"
        [{ name := "pg-0", role := Role.replica, state := PodState.running }] 0).head? =
      some { reason := "ReadyConfirmed", targetPod := "pg-1", timestamp := 0 } ∧
    (0 : Nat) < ({ reason := "Killing", targetPod := "pg-0", timestamp := 1 } : LifecycleEvent).timestamp :=
  switchover_killing_only_after_ready "pg-1"
    [{ name := "pg-0", role := Role.replica, state := PodState.running }] 0
    { reason := "Killing", targetPod := "pg-0", timestamp := 1 }
    (by decide) (by decide)

/-- C6: per cluster, at most one orchestration operation is active: from
an idle state the first submission starts, a second submission while the
first is in flight is rejected immediately with a concurrency conflict
and changes nothing (it is not queued), and after the first operation
completes a new submission starts again. -/
theorem single_flight_per_cluster (s : ClusterOrchState) (op1 op2 : OpKind)
    (hidle : s.inFlight = none) :
    (submitOperation s op1).1 = SubmitResult.started ∧
    (submitOperation s op1).2.inFlight = some op1 ∧
    (submitOperation (submitOperation s op1).2 op2).1 =
      SubmitResult.rejectedConcurrencyConflict ∧
    (submitOperation (submitOperation s op1).2 op2).2 = (submitOperation s op1).2 ∧
    (submitOperation (completeOperation (submitOperation s op1).2) op2).1 =
      SubmitResult.started := by
  simp [submitOperation, completeOperation, hidle]

/-- Witness for C6: from the idle state, a switchover submission starts
and a concurrent deletion submission is rejected, then accepted after
completion. -/
theorem single_flight_per_cluster_witness :
    (submitOperation { inFlight := none } OpKind.switchoverOp).1 = SubmitResult.started ∧
    (submitOperation { inFlight := none } OpKind.switchoverOp).2.inFlight =
      some OpKind.switchoverOp ∧
    (submitOperation (submitOperation { inFlight := none } OpKind.switchoverOp).2
      OpKind.deletionOp).1 = SubmitResult.rejectedConcurrencyConflict ∧
    (submitOperation (submitOperation { inFlight := none } OpKind.switchoverOp).2
      OpKind.deletionOp).2 = (submitOperation { inFlight := none } OpKind.switchoverOp).2 ∧
    (submitOperation (completeOperation
      (submitOperation { inFlight := none } OpKind.switchoverOp).2) OpKind.deletionOp).1 =
      SubmitResult.started :=
  single_flight_per_cluster { inFlight := none } OpKind.switchoverOp OpKind.deletionOp rfl

/-- C7: the inbound interface events are a mutation of the
`trigger-switchover` annotation, dispatched to the Switchover Trigger,
and deletion of the Cluster resource, dispatched to the Deletion
Sequencer; outbound, the pod `role` label whose key and `master`/`replica`
values the test fixtures select on takes values among
`master`/`primary`/`replica`. -/
theorem inbound_outbound_interface (v : String) :
    dispatchInbound (InboundEvent.annotationMutation triggerSwitchoverAnnotationKey v) =
      some Component.switchoverTrigger ∧
    dispatchInbound InboundEvent.resourceDeletion = some Component.deletionSequencer ∧
    fixtureMasterSelector = roleLabelKey ++ "=" ++ roleMaster ∧
    fixtureReplicaSelector = roleLabelKey ++ "=" ++ roleReplica ∧
    roleMaster ∈ roleLabelValues ∧ "primary" ∈ roleLabelValues ∧
    roleReplica ∈ roleLabelValues :=
  ⟨by simp [dispatchInbound], rfl, by decide, by decide, by decide, by decide, by decide⟩

end PGOperator

namespace PgoCmd

/-- C8: for a supplied (non-empty after trimming) username that is a
PostgreSQL system account, both `createUser` and `updateUser` exit with
status 1 before issuing any API request, so a system-account username
never reaches the API server through these commands. -/
theorem system_account_rejected_before_api (isSystemAccount : String → Bool)
    (flags : UserCmdFlags) (args : List String) (ns : String)
    (hsys : isSystemAccount (trimSpace flags.Username) = true)
    (hne : trimSpace flags.Username ≠ "") :
    createUser isSystemAccount flags args ns = Except.error 1 ∧
    updateUser isSystemAccount flags args ns = Except.error 1 := by
  constructor
  · simp [createUser, hne, hsys]
  · by_cases h1 : flags.EnableLogin <;> by_cases h2 : flags.DisableLogin <;>
      simp [updateUser, h1, h2, hne, hsys]

/-- Witness for C8: the system account postgres is rejected by both
commands before any request is built. -/
theorem system_account_rejected_before_api_witness :
    createUser (fun u => u == "postgres") { Username := "postgres" } [] "pgouser" =
      Except.error 1 ∧
    updateUser (fun u => u == "postgres") { Username := "postgres" } [] "pgouser" =
      Except.error 1 :=
  system_account_rejected_before_api (fun u => u == "postgres")
    { Username := "postgres" } [] "pgouser" (by decide) (by decide)

/-- C9: the row printed by `printUserTextRow` has empty password and
expires fields and status error exactly when the result carries the Error
flag; otherwise status is ok, the password is printed as-is, and expires
renders as never for an empty or always-valid `ValidUntil`, expired for
the never-valid sentinel, and the `ValidUntil` value verbatim
otherwise. -/
theorem printUserTextRow_fields (result : UserResponseDetail) :
    (printUserTextRow result).status = (if result.Error then "error" else "ok") ∧
    (printUserTextRow result).password = (if result.Error then "" else result.Password) ∧
    (printUserTextRow result).expires =
      (if result.Error then ""
       else if result.ValidUntil = "" ∨ result.ValidUntil = SQLValidUntilAlways then "never"
       else if result.ValidUntil = SQLValidUntilNever then "expired"
       else result.ValidUntil) := by
  cases hE : result.Error <;> simp [printUserTextRow, hE]

/-- C10: `showUser` sends the single cluster name all exactly when it is
called with no cluster-name arguments and a non-empty selector; a
non-empty argument list is passed through to the request unchanged. -/
theorem showUser_clusters_defaulting (flags : UserCmdFlags) (args : List String)
    (ns : String) :
    (showUser flags args ns).Clusters =
      (if args = [] ∧ flags.Selector ≠ "" then ["all"] else args) := by
  simp [showUser, List.length_eq_zero]

end PgoCmd
